import Mathlib

/-!
Shallow embedding of the storefront backend in src/main.py: the product
catalog CRUD endpoints and the Stripe checkout-session builder, together
with the BSON ObjectId identifier codec that both use.

Conventions of the embedding:
* Python numbers (floats) are modelled as rationals; Python int() applied
  to a number is truncation toward zero (pyTrunc).
* The Mongo product collection is a function from ObjectId keys to optional
  raw documents (ProductDoc, every attribute optional, mirroring dict.get).
* An HTTPException raised by a handler is ApiError.http status detail; a
  Python exception that the handler does not catch is ApiError.uncaught msg,
  which FastAPI surfaces to the HTTP caller as a 500 response (statusOf).
* The Stripe gateway is a parameter: a function from the exact argument
  record the code passes (GatewayParams) to either a session URL or an
  error message; stripe-not-configured is the Bool parameter
  stripeConfigured (source: the module-level stripe global being None).
-/

/-- Python int() applied to a rational number: truncation toward zero. -/
def pyTrunc (q : ℚ) : ℤ :=
  if 0 ≤ q then ⌊q⌋ else ⌈q⌉

/-- Hexadecimal-digit test used by the BSON ObjectId string parser. -/
def isHexChar (c : Char) : Bool :=
  c.isDigit || ('a' ≤ c && c ≤ 'f') || ('A' ≤ c && c ≤ 'F')

/-- Internal storage key: a BSON ObjectId, kept as its 24-char lowercase hex form. -/
structure ObjectId where
  hex : String
deriving DecidableEq

/-- ASCII lowercase of a string, character by character. -/
def lowerStr (s : String) : String :=
  ⟨s.toList.map Char.toLower⟩

/-- bson.ObjectId(s) on a client-supplied string: succeeds exactly when s is
24 hexadecimal characters (case-insensitive), otherwise raises
bson.errors.InvalidId. Modelled as an Option; none is the raised exception. -/
def objectIdOfString (s : String) : Option ObjectId :=
  if s.length = 24 && s.toList.all isHexChar then some ⟨lowerStr s⟩ else none

/-- A raw product document as stored in the "product" collection: every
attribute may be absent, mirroring prod.get(...) access in the source. -/
structure ProductDoc where
  title : Option String := none
  description : Option String := none
  price : Option ℚ := none
  compare_at_price : Option ℚ := none
  category : Option String := none
  in_stock : Option Bool := none
  stock : Option Int := none
  images : Option (List String) := none
  tags : Option (List String) := none
deriving DecidableEq

/-- The product collection db["product"]: find_one by _id. -/
def Store := ObjectId → Option ProductDoc

/-- ProductIn: the validated request schema (pydantic) for create/update. -/
structure ProductIn where
  title : String
  description : Option String := none
  price : ℚ
  compare_at_price : Option ℚ := none
  category : String := "Tea"
  in_stock : Bool := true
  stock : Int := 100
  images : List String := []
  tags : List String := []
deriving DecidableEq

/-- Product: the response schema, ProductIn plus the assigned identifier. -/
structure Product where
  id : String
  title : String
  description : Option String
  price : ℚ
  compare_at_price : Option ℚ
  category : String
  in_stock : Bool
  stock : Int
  images : List String
  tags : List String
deriving DecidableEq

/-- Outcome of a handler: an HTTPException with status and detail, or an
uncaught Python exception (which FastAPI reports as a 500 response). -/
inductive ApiError where
  | http (status : Nat) (detail : String)
  | uncaught (message : String)
deriving DecidableEq

/-- HTTP status code the client observes for an ApiError. -/
def statusOf : ApiError → Nat
  | .http s _ => s
  | .uncaught _ => 500

/-- payload.model_dump(): the document written to storage by create/update;
every ProductIn field is present in the resulting document. -/
def docOfProductIn (p : ProductIn) : ProductDoc :=
  { title := some p.title
    description := p.description
    price := some p.price
    compare_at_price := p.compare_at_price
    category := some p.category
    in_stock := some p.in_stock
    stock := some p.stock
    images := some p.images
    tags := some p.tags }

/-- Nonnegativity check pydantic applies to an optional ge=0 field. -/
def nonnegOpt : Option ℚ → Bool
  | none => true
  | some c => decide (0 ≤ c)

/-- Product(**serialize_doc(doc)): serialize_doc replaces _id by the string
field id, then pydantic validation requires title and price to be present,
price ≥ 0 and compare_at_price ≥ 0 when present, and fills declared defaults
for absent optional fields; a validation failure is an uncaught exception. -/
def productOfDoc (oid : ObjectId) (doc : ProductDoc) : Except ApiError Product :=
  match doc.title, doc.price with
  | some t, some p =>
    if 0 ≤ p ∧ nonnegOpt doc.compare_at_price then
      .ok { id := oid.hex
            title := t
            description := doc.description
            price := p
            compare_at_price := doc.compare_at_price
            category := doc.category.getD "Tea"
            in_stock := doc.in_stock.getD true
            stock := doc.stock.getD 100
            images := doc.images.getD []
            tags := doc.tags.getD [] }
    else .error (.uncaught "pydantic.ValidationError")
  | _, _ => .error (.uncaught "pydantic.ValidationError")

/-- GET /api/products/product_id (src/main.py lines 113-119): ObjectId
decode (uncaught InvalidId on malformed input), find_one, 404 when absent,
otherwise the serialized Product. -/
def get_product (store : Store) (product_id : String) : Except ApiError Product :=
  match objectIdOfString product_id with
  | none => .error (.uncaught "bson.errors.InvalidId")
  | some oid =>
    match store oid with
    | none => .error (.http 404 "Product not found")
    | some doc => productOfDoc oid doc

/-- update_one(...).matched_count for a filter on _id: 1 when the key is
present, 0 otherwise. -/
def matched_count (store : Store) (oid : ObjectId) : Nat :=
  if (store oid).isSome then 1 else 0

/-- delete_one(...).deleted_count for a filter on _id. -/
def deleted_count (store : Store) (oid : ObjectId) : Nat :=
  if (store oid).isSome then 1 else 0

/-- PUT /api/products/product_id (lines 121-128): decode, update_one with a
full model_dump set, 404 on zero matched_count, then re-read and serialize;
the re-read sees the document with every field overwritten by the payload. -/
def update_product (store : Store) (product_id : String) (payload : ProductIn) :
    Except ApiError Product :=
  match objectIdOfString product_id with
  | none => .error (.uncaught "bson.errors.InvalidId")
  | some oid =>
    if matched_count store oid = 0 then .error (.http 404 "Product not found")
    else productOfDoc oid (docOfProductIn payload)

/-- DELETE /api/products/product_id (lines 130-136): decode, delete_one,
404 on zero deleted_count, else success true. -/
def delete_product (store : Store) (product_id : String) : Except ApiError Bool :=
  match objectIdOfString product_id with
  | none => .error (.uncaught "bson.errors.InvalidId")
  | some oid =>
    if deleted_count store oid = 0 then .error (.http 404 "Product not found")
    else .ok true

/-- Line 104 of src/main.py evaluates
db.command("serverStatus")["localTime"].__class__.__mro__[1].from_json(new_id).
localTime decodes to a Python datetime.datetime, whose second entry in the
method resolution order is datetime.date, a type with no from_json attribute;
the attribute lookup therefore raises AttributeError on every input, outside
any try block. Modelled as a computation that never returns a value. -/
def dateFromJson (new_id : String) : Except ApiError Empty :=
  .error (.uncaught "AttributeError: type object datetime.date has no attribute from_json")

/-- POST /api/products (lines 98-111): 500 when the database is not
configured; otherwise create_document assigns newId and line 104 runs before
the fallback fetch, so the handler propagates its AttributeError. -/
def create_product (dbConfigured : Bool) (newId : String) (payload : ProductIn) :
    Except ApiError Product :=
  if dbConfigured = false then .error (.http 500 "Database not configured")
  else
    match dateFromJson newId with
    | .error e => .error e
    | .ok e => e.elim

/-- Client cart entry: identifier and quantity only, never a price. -/
structure CartItem where
  product_id : String
  quantity : Int := 1
deriving DecidableEq

/-- Body of POST /api/checkout/create-session. -/
structure CheckoutRequest where
  items : List CartItem
  customer_email : Option String := none
  success_url : String
  cancel_url : String
deriving DecidableEq

/-- product_data of a Stripe line item: display name and image list. -/
structure ProductData where
  name : String
  images : List String
deriving DecidableEq

/-- price_data of a Stripe line item. -/
structure PriceData where
  currency : String
  product_data : ProductData
  unit_amount : Int
deriving DecidableEq

/-- One Stripe line item: price_data plus quantity. -/
structure LineItem where
  price_data : PriceData
  quantity : Int
deriving DecidableEq

/-- Line 153: unit_amount = int(float(prod.get("price", 0)) * 100). -/
def unit_amount (prod : ProductDoc) : Int :=
  pyTrunc (prod.price.getD 0 * 100)

/-- Lines 154-164: the line item appended for one resolved product. -/
def buildLineItem (prod : ProductDoc) (qty : Int) : LineItem :=
  { price_data :=
      { currency := "usd"
        product_data :=
          { name := prod.title.getD "Product"
            images := (prod.images.getD []).take 1 }
        unit_amount := unit_amount prod }
    quantity := qty }

/-- Resolution of one cart item against the collection: ObjectId decode then
find_one; none when either step fails. -/
def resolveItem (store : Store) (item : CartItem) : Option ProductDoc :=
  (objectIdOfString item.product_id).bind store

/-- Lines 148-164: the loop building line_items in cart order, aborting the
whole request at the first item whose id is malformed (uncaught InvalidId)
or whose product is absent (404 naming the offending id). -/
def resolveLineItems (store : Store) : List CartItem → Except ApiError (List LineItem)
  | [] => .ok []
  | item :: rest =>
    match objectIdOfString item.product_id with
    | none => .error (.uncaught "bson.errors.InvalidId")
    | some oid =>
      match store oid with
      | none => .error (.http 404 ("Product not found: " ++ item.product_id))
      | some prod =>
        match resolveLineItems store rest with
        | .error e => .error e
        | .ok tail => .ok (buildLineItem prod item.quantity :: tail)

/-- Exact argument record the source passes to stripe.checkout.Session.create. -/
structure GatewayParams where
  payment_method_types : List String
  mode : String
  line_items : List LineItem
  success_url : String
  cancel_url : String
  customer_email : Option String
deriving DecidableEq

/-- The external gateway: the session URL on success, str(e) on failure. -/
def Gateway := GatewayParams → Except String String

/-- POST /api/checkout/create-session (lines 141-177): fail 400 when stripe
is unconfigured, build line items, call the gateway with card-only one-time
payment parameters, return the session URL, or 500 carrying str(e). -/
def create_checkout_session (stripeConfigured : Bool) (gateway : Gateway)
    (store : Store) (req : CheckoutRequest) : Except ApiError String :=
  if stripeConfigured = false then
    .error (.http 400 "Stripe is not configured. Set STRIPE_SECRET_KEY environment variable.")
  else
    match resolveLineItems store req.items with
    | .error e => .error e
    | .ok line_items =>
      match gateway { payment_method_types := ["card"]
                      mode := "payment"
                      line_items := line_items
                      success_url := req.success_url
                      cancel_url := req.cancel_url
                      customer_email := req.customer_email } with
      | .ok url => .ok url
      | .error msg => .error (.http 500 msg)

/-- Rewrite of a document changing only the stock-related attributes. -/
def setStockFields (d : ProductDoc) (flag : Option Bool) (count : Option Int) : ProductDoc :=
  { d with in_stock := flag, stock := count }

/-- A store with the stock-related attributes of every document rewritten
arbitrarily (f chooses per key). -/
def mapStockFields (f : ObjectId → Option Bool × Option Int) (store : Store) : Store :=
  fun oid => (store oid).map fun d => setStockFields d (f oid).1 (f oid).2

/-- Concrete 24-hex-char identifier used by witnesses. -/
def sampleId : String := "aaaaaaaaaaaaaaaaaaaaaaaa"

/-- Concrete in-stock tea document used by witnesses. -/
def sampleDoc : ProductDoc :=
  { title := some "Green Tea"
    price := some (9.99 : ℚ)
    in_stock := some true
    stock := some 5
    images := some ["img1", "img2"] }

/-- Store holding exactly sampleDoc under sampleId. -/
def sampleStore : Store :=
  fun oid => if oid.hex = sampleId then some sampleDoc else none

/-- Gateway stub that always issues the same session URL. -/
def sampleGateway : Gateway :=
  fun _ => .ok "https://checkout.stripe.com/pay/cs_test"

/-- Gateway stub that always fails, for gateway-independence witnesses. -/
def failGateway : Gateway :=
  fun _ => .error "rate limited"

/-- Document whose stored price is 1.995, exercising the rounding boundary. -/
def boundaryDoc : ProductDoc :=
  { title := some "Boundary Tea", price := some (1.995 : ℚ) }

/-- Identifier of the first cart item (in request order) whose id decodes but
whose product the loop fails to resolve; mirrors where the 404 abort fires. -/
def firstUnresolved (store : Store) : List CartItem → Option String
  | [] => none
  | it :: rest =>
    if (resolveItem store it).isSome then firstUnresolved store rest
    else some it.product_id

/-- Well-formed identifier that no sample store contains. -/
def missingId : String := "bbbbbbbbbbbbbbbbbbbbbbbb"

/-- One-item checkout request over sampleId with quantity 2. -/
def sampleReq : CheckoutRequest :=
  { items := [{ product_id := sampleId, quantity := 2 }]
    success_url := "https://shop.example/ok"
    cancel_url := "https://shop.example/cancel" }

/-- Two-item request whose second item references an absent product. -/
def sampleReqMissing : CheckoutRequest :=
  { items := [{ product_id := sampleId, quantity := 1 }, { product_id := missingId, quantity := 3 }]
    success_url := "https://shop.example/ok"
    cancel_url := "https://shop.example/cancel" }

/-- Document with every attribute absent, exercising the dict.get defaults. -/
def bareDoc : ProductDoc := {}

/-- Store holding exactly bareDoc under sampleId. -/
def bareStore : Store :=
  fun oid => if oid.hex = sampleId then some bareDoc else none

/-! Helper lemmas shared by the claim theorems. -/

/-- Replacing the stock attributes of a document does not change the line
item built from it: buildLineItem reads only title, images and price. -/
theorem buildLineItem_setStockFields (d : ProductDoc) (b : Option Bool) (n : Option Int)
    (q : Int) : buildLineItem (setStockFields d b n) q = buildLineItem d q := rfl

/-- Resolution of the line-item list ignores the stock attributes of every
stored document. -/
theorem resolveLineItems_mapStockFields (f : ObjectId → Option Bool × Option Int)
    (store : Store) (items : List CartItem) :
    resolveLineItems (mapStockFields f store) items = resolveLineItems store items := by
  induction items with
  | nil => rfl
  | cons it rest ih =>
    cases ho : objectIdOfString it.product_id with
    | none => simp [resolveLineItems, ho]
    | some oid =>
      cases hs : store oid with
      | none => simp [resolveLineItems, ho, mapStockFields, hs]
      | some d =>
        simp [resolveLineItems, ho, mapStockFields, hs, ih, buildLineItem_setStockFields]

/-- When every cart item resolves (the pointwise resolutions are the list
prods of documents), the loop returns line items built in cart order. -/
theorem resolveLineItems_of_resolved (store : Store) (items : List CartItem) :
    ∀ prods : List ProductDoc, items.map (resolveItem store) = prods.map some →
      resolveLineItems store items =
        .ok (List.zipWith (fun p it => buildLineItem p it.quantity) prods items) ∧
      prods.length = items.length := by
  induction items with
  | nil =>
    intro prods h
    cases prods with
    | nil => exact ⟨rfl, rfl⟩
    | cons p ps => simp at h
  | cons it rest ih =>
    intro prods h
    cases prods with
    | nil => simp at h
    | cons p ps =>
      simp only [List.map_cons, List.cons.injEq] at h
      obtain ⟨hit, hrest0⟩ := h
      obtain ⟨hres, hlen⟩ := ih ps hrest0
      cases hoid : objectIdOfString it.product_id with
      | none =>
        simp only [resolveItem, hoid, Option.none_bind] at hit
        cases hit
      | some oid =>
        have hstore : store oid = some p := by
          simpa [resolveItem, hoid] using hit
        refine ⟨?_, by simp [hlen]⟩
        simp [resolveLineItems, hoid, hstore, hres]

/-- The loop aborts with a 404 naming the first cart item whose (well-formed)
identifier matches no stored product. -/
theorem resolveLineItems_missing (store : Store) (items : List CartItem) :
    (∀ it ∈ items, (objectIdOfString it.product_id).isSome = true) →
    (∃ it ∈ items, resolveItem store it = none) →
    ∃ badId, firstUnresolved store items = some badId ∧
      (∃ it ∈ items, it.product_id = badId ∧ resolveItem store it = none) ∧
      resolveLineItems store items =
        .error (.http 404 ("Product not found: " ++ badId)) := by
  induction items with
  | nil => intro _ h2; simp at h2
  | cons it rest ih =>
    intro h1 h2
    have hid : (objectIdOfString it.product_id).isSome = true :=
      h1 it (List.mem_cons_self it rest)
    obtain ⟨oid, hoid⟩ := Option.isSome_iff_exists.mp hid
    cases hs : store oid with
    | none =>
      refine ⟨it.product_id, ?_, ⟨it, List.mem_cons_self it rest, rfl, ?_⟩, ?_⟩
      · simp [firstUnresolved, resolveItem, hoid, hs]
      · simp [resolveItem, hoid, hs]
      · simp [resolveLineItems, hoid, hs]
    | some prod =>
      have hres : resolveItem store it = some prod := by simp [resolveItem, hoid, hs]
      obtain ⟨x, hx, hxnone⟩ := h2
      rcases List.mem_cons.mp hx with rfl | hxr
      · simp [hres] at hxnone
      · have h1r : ∀ y ∈ rest, (objectIdOfString y.product_id).isSome = true :=
          fun y hy => h1 y (List.mem_cons_of_mem _ hy)
        obtain ⟨badId, hfirst, hmem, herr⟩ := ih h1r ⟨x, hxr, hxnone⟩
        refine ⟨badId, ?_, ?_, ?_⟩
        · simp [firstUnresolved, hres, hfirst]
        · obtain ⟨y, hy, h3, h4⟩ := hmem
          exact ⟨y, List.mem_cons_of_mem _ hy, h3, h4⟩
        · simp [resolveLineItems, hoid, hs, herr]

/-! Claim theorems. -/

/-- C1 counterexample: the code computes unit_amount by Python int()
truncation, not rounding. A stored price of 1.995 yields unit_amount 199,
while round(price * 100) is 200, so the claimed equality fails. -/
theorem c1_counterexample :
    boundaryDoc.price = some ((1.995 : ℚ)) ∧
    unit_amount boundaryDoc = 199 ∧
    round (((1.995 : ℚ)) * 100) = 200 ∧
    unit_amount boundaryDoc ≠ round ((boundaryDoc.price.getD 0) * 100) := by
  have h1 : unit_amount boundaryDoc = 199 := by
    norm_num [unit_amount, boundaryDoc, pyTrunc]
  have h2 : round ((boundaryDoc.price.getD 0 : ℚ) * 100) = 200 := by
    norm_num [boundaryDoc, round_eq]
  exact ⟨rfl, h1, by norm_num [round_eq], by rw [h1, h2]; decide⟩

/-- C1 (amended): for every product document whose stored price is present
and nonnegative, the line item unit_amount is the floor (truncation) of
price * 100; in particular price 9.99 yields 999 (see the witness). -/
theorem c1_unit_amount_floor (d : ProductDoc) (p : ℚ) (hd : d.price = some p)
    (hp : 0 ≤ p) : unit_amount d = ⌊p * 100⌋ := by
  have h100 : (0 : ℚ) ≤ p * 100 := by positivity
  simp [unit_amount, hd, pyTrunc, h100]

/-- C1 witness: price 9.99 produces unit_amount 999 via the floor rule. -/
theorem c1_witness :
    sampleDoc.price = some ((9.99 : ℚ)) ∧
    unit_amount sampleDoc = ⌊((9.99 : ℚ)) * 100⌋ ∧
    unit_amount sampleDoc = 999 := by
  refine ⟨rfl, c1_unit_amount_floor sampleDoc ((9.99 : ℚ)) rfl (by norm_num), ?_⟩
  norm_num [unit_amount, sampleDoc, pyTrunc]

/-- C2: when every cart item id is well-formed and some item matches no
stored product, checkout aborts with a 404 naming an unresolvable item id,
and the result does not depend on the gateway (no gateway call, so no
partial session is ever created). -/
theorem c2_missing_product_aborts (store : Store) (g₁ g₂ : Gateway)
    (req : CheckoutRequest)
    (h1 : ∀ it ∈ req.items, (objectIdOfString it.product_id).isSome = true)
    (h2 : ∃ it ∈ req.items, resolveItem store it = none) :
    (∃ badId,
      (∃ it ∈ req.items, it.product_id = badId ∧ resolveItem store it = none) ∧
      create_checkout_session true g₁ store req =
        .error (.http 404 ("Product not found: " ++ badId))) ∧
    create_checkout_session true g₁ store req =
      create_checkout_session true g₂ store req := by
  obtain ⟨badId, _, hmem, herr⟩ := resolveLineItems_missing store req.items h1 h2
  have e1 : create_checkout_session true g₁ store req =
      .error (.http 404 ("Product not found: " ++ badId)) := by
    simp [create_checkout_session, herr]
  have e2 : create_checkout_session true g₂ store req =
      .error (.http 404 ("Product not found: " ++ badId)) := by
    simp [create_checkout_session, herr]
  exact ⟨⟨badId, hmem, e1⟩, e1.trans e2.symm⟩

/-- C2 witness: a two-item cart whose second product is absent aborts with
404 naming that id, for a succeeding and a failing gateway alike. -/
theorem c2_witness :
    (∃ badId,
      (∃ it ∈ sampleReqMissing.items,
        it.product_id = badId ∧ resolveItem sampleStore it = none) ∧
      create_checkout_session true sampleGateway sampleStore sampleReqMissing =
        .error (.http 404 ("Product not found: " ++ badId))) ∧
    create_checkout_session true sampleGateway sampleStore sampleReqMissing =
      create_checkout_session true failGateway sampleStore sampleReqMissing :=
  c2_missing_product_aborts sampleStore sampleGateway failGateway sampleReqMissing
    (by decide) ⟨{ product_id := missingId, quantity := 3 }, by decide, rfl⟩

/-- C3: product creation can never succeed. With the database configured,
line 104 of src/main.py raises AttributeError (datetime.date has no
from_json) for every payload, so the handler answers 500 and the claimed
create-then-get round trip is unrealizable. -/
theorem c3_create_always_fails (newId : String) (payload : ProductIn) :
    create_product true newId payload =
      .error (.uncaught
        "AttributeError: type object datetime.date has no attribute from_json") ∧
    statusOf (.uncaught
        "AttributeError: type object datetime.date has no attribute from_json") = 500 :=
  ⟨rfl, rfl⟩

/-- C4 counterexample: for the malformed identifier "abc", get_product does
not answer a handled 404; it propagates an uncaught InvalidId exception,
which the HTTP caller sees as status 500. -/
theorem c4_counterexample :
    objectIdOfString "abc" = none ∧
    get_product (fun _ => none) "abc" = .error (.uncaught "bson.errors.InvalidId") ∧
    statusOf (.uncaught "bson.errors.InvalidId") = 500 ∧ (500 : Nat) ≠ 404 :=
  ⟨rfl, rfl, rfl, by decide⟩

/-- C4 (amended): for every malformed identifier string, get, update, delete
and checkout item resolution all raise the uncaught bson InvalidId exception
— surfaced to the HTTP caller as a 500 response, not as the handled 404 —
and never reach storage: the outcome is the same for every store. -/
theorem c4_malformed_id_uncaught (pid : String) (hp : objectIdOfString pid = none) :
    (∀ s : Store, get_product s pid = .error (.uncaught "bson.errors.InvalidId")) ∧
    (∀ (s : Store) (payload : ProductIn),
      update_product s pid payload = .error (.uncaught "bson.errors.InvalidId")) ∧
    (∀ s : Store, delete_product s pid = .error (.uncaught "bson.errors.InvalidId")) ∧
    (∀ (s : Store) (g : Gateway) (item : CartItem) (rest : List CartItem)
        (email : Option String) (su cu : String), item.product_id = pid →
      create_checkout_session true g s
          { items := item :: rest, customer_email := email,
            success_url := su, cancel_url := cu } =
        .error (.uncaught "bson.errors.InvalidId")) ∧
    statusOf (.uncaught "bson.errors.InvalidId") = 500 := by
  refine ⟨fun s => ?_, fun s payload => ?_, fun s => ?_,
    fun s g item rest email su cu hitem => ?_, rfl⟩
  · simp [get_product, hp]
  · simp [update_product, hp]
  · simp [delete_product, hp]
  · simp [create_checkout_session, resolveLineItems, hitem, hp]

/-- C4 witness: the malformed identifier "abc" on the empty store. -/
theorem c4_witness :
    get_product (fun _ => none) "zzz" = .error (.uncaught "bson.errors.InvalidId") :=
  (c4_malformed_id_uncaught "zzz" rfl).1 (fun _ => none)

/-- C5: with stripe unconfigured, every checkout call answers 400 with the
fixed configuration message, identically for every gateway, store and
request — so neither collaborator is ever consulted. -/
theorem c5_unconfigured_rejects_all (g₁ g₂ : Gateway) (s₁ s₂ : Store)
    (req₁ req₂ : CheckoutRequest) :
    create_checkout_session false g₁ s₁ req₁ =
      .error (.http 400 "Stripe is not configured. Set STRIPE_SECRET_KEY environment variable.") ∧
    create_checkout_session false g₁ s₁ req₁ = create_checkout_session false g₂ s₂ req₂ ∧
    statusOf (.http 400 "Stripe is not configured. Set STRIPE_SECRET_KEY environment variable.") = 400 :=
  ⟨rfl, rfl, rfl⟩

/-- C6: when every item resolves, the builder calls the gateway with exactly
card-only payment methods, one-time payment mode, the built line items, the
caller-supplied redirect URLs and the caller-supplied email unmodified; a
gateway success is returned verbatim and a gateway failure becomes a single
500 carrying the gateway message (one call, no retry). -/
theorem c6_gateway_passthrough (g : Gateway) (store : Store) (req : CheckoutRequest)
    (lis : List LineItem) (out : Except String String)
    (hres : resolveLineItems store req.items = .ok lis)
    (hg : g { payment_method_types := ["card"]
              mode := "payment"
              line_items := lis
              success_url := req.success_url
              cancel_url := req.cancel_url
              customer_email := req.customer_email } = out) :
    (∀ url, out = .ok url → create_checkout_session true g store req = .ok url) ∧
    (∀ msg, out = .error msg →
      create_checkout_session true g store req = .error (.http 500 msg)) := by
  subst hg
  constructor <;> intro x hx <;> simp [create_checkout_session, hres, hx]

/-- C6 witness: the one-item request over the sample store, with a gateway
issuing a fixed session URL, returns that URL verbatim. -/
theorem c6_witness :
    create_checkout_session true sampleGateway sampleStore sampleReq =
      .ok "https://checkout.stripe.com/pay/cs_test" :=
  (c6_gateway_passthrough sampleGateway sampleStore sampleReq
    [buildLineItem sampleDoc 2] (.ok "https://checkout.stripe.com/pay/cs_test")
    rfl rfl).1 "https://checkout.stripe.com/pay/cs_test" rfl

/-- C7: when every cart item resolves, the built list has one line item per
cart item in cart order, and every line item carries the usd currency code,
the product title (default "Product"), at most one image (the first of the
image list), the minor-unit price of line 153, and the requested quantity. -/
theorem c7_line_item_shape (store : Store) (items : List CartItem)
    (prods : List ProductDoc)
    (h : items.map (resolveItem store) = prods.map some) :
    resolveLineItems store items =
      .ok (List.zipWith (fun p it => buildLineItem p it.quantity) prods items) ∧
    (List.zipWith (fun p it => buildLineItem p it.quantity) prods items).length
      = items.length ∧
    ∀ (p : ProductDoc) (q : Int),
      (buildLineItem p q).price_data.currency = "usd" ∧
      (buildLineItem p q).price_data.product_data.name = p.title.getD "Product" ∧
      (buildLineItem p q).price_data.product_data.images = (p.images.getD []).take 1 ∧
      (buildLineItem p q).price_data.product_data.images.length ≤ 1 ∧
      (buildLineItem p q).price_data.unit_amount = unit_amount p ∧
      (buildLineItem p q).quantity = q := by
  obtain ⟨h1, h2⟩ := resolveLineItems_of_resolved store items prods h
  refine ⟨h1, ?_, fun p q => ⟨rfl, rfl, rfl, ?_, rfl, rfl⟩⟩
  · rw [List.length_zipWith, h2, Nat.min_self]
  · simp only [buildLineItem, List.length_take]
    exact min_le_left _ _

/-- C7 witness: the sample one-item cart builds exactly one line item, for
the sample green-tea product. -/
theorem c7_witness :
    resolveLineItems sampleStore sampleReq.items =
      .ok (List.zipWith (fun p it => buildLineItem p it.quantity)
        [sampleDoc] sampleReq.items) ∧
    (List.zipWith (fun p it => buildLineItem p it.quantity)
      [sampleDoc] sampleReq.items).length = sampleReq.items.length ∧
    ∀ (p : ProductDoc) (q : Int),
      (buildLineItem p q).price_data.currency = "usd" ∧
      (buildLineItem p q).price_data.product_data.name = p.title.getD "Product" ∧
      (buildLineItem p q).price_data.product_data.images = (p.images.getD []).take 1 ∧
      (buildLineItem p q).price_data.product_data.images.length ≤ 1 ∧
      (buildLineItem p q).price_data.unit_amount = unit_amount p ∧
      (buildLineItem p q).quantity = q :=
  c7_line_item_shape sampleStore sampleReq.items [sampleDoc] rfl

/-- C8: for a well-formed identifier matching no stored record, the store
reports a zero match count and get, update and delete each answer 404. -/
theorem c8_not_found (store : Store) (pid : String) (oid : ObjectId)
    (payload : ProductIn)
    (hd : objectIdOfString pid = some oid) (habs : store oid = none) :
    matched_count store oid = 0 ∧ deleted_count store oid = 0 ∧
    get_product store pid = .error (.http 404 "Product not found") ∧
    update_product store pid payload = .error (.http 404 "Product not found") ∧
    delete_product store pid = .error (.http 404 "Product not found") := by
  refine ⟨?_, ?_, ?_, ?_, ?_⟩ <;>
    simp [matched_count, deleted_count, get_product, update_product,
      delete_product, hd, habs]

/-- C8 witness: the sample identifier on the empty store. -/
theorem c8_witness :
    matched_count (fun _ => none) ⟨sampleId⟩ = 0 ∧
    deleted_count (fun _ => none) ⟨sampleId⟩ = 0 ∧
    get_product (fun _ => none) sampleId = .error (.http 404 "Product not found") ∧
    update_product (fun _ => none) sampleId { title := "T", price := 1 } =
      .error (.http 404 "Product not found") ∧
    delete_product (fun _ => none) sampleId = .error (.http 404 "Product not found") :=
  c8_not_found (fun _ => none) sampleId ⟨sampleId⟩ { title := "T", price := 1 } rfl rfl

/-- C9: a resolved document with no price attribute yields a zero-cost line
item, one with no title attribute is named "Product", and a cart item
resolving to such a document still resolves (the request is not aborted). -/
theorem c9_missing_attribute_defaults (d : ProductDoc) (q : Int)
    (hp : d.price = none) (ht : d.title = none) :
    (buildLineItem d q).price_data.unit_amount = 0 ∧
    (buildLineItem d q).price_data.product_data.name = "Product" ∧
    ∀ (s : Store) (it : CartItem) (oid : ObjectId),
      objectIdOfString it.product_id = some oid → s oid = some d →
      resolveLineItems s [it] = .ok [buildLineItem d it.quantity] := by
  refine ⟨?_, ?_, fun s it oid h1 h2 => ?_⟩
  · simp [buildLineItem, unit_amount, hp, pyTrunc]
  · simp [buildLineItem, ht]
  · simp [resolveLineItems, h1, h2]

/-- C9 witness: the attribute-free document under the sample identifier. -/
theorem c9_witness :
    (buildLineItem bareDoc 1).price_data.unit_amount = 0 ∧
    (buildLineItem bareDoc 1).price_data.product_data.name = "Product" ∧
    ∀ (s : Store) (it : CartItem) (oid : ObjectId),
      objectIdOfString it.product_id = some oid → s oid = some bareDoc →
      resolveLineItems s [it] = .ok [buildLineItem bareDoc it.quantity] :=
  c9_missing_attribute_defaults bareDoc 1 rfl rfl

/-- C10: checkout never consults in_stock or stock: rewriting those two
attributes of every stored document arbitrarily leaves the checkout result
unchanged, so a cart that yields a session still yields the same session
when every referenced product is out of stock with zero stock. -/
theorem c10_stock_never_consulted (cfg : Bool) (g : Gateway) (store : Store)
    (req : CheckoutRequest) (f : ObjectId → Option Bool × Option Int) :
    create_checkout_session cfg g (mapStockFields f store) req =
      create_checkout_session cfg g store req ∧
    ∀ url, create_checkout_session cfg g store req = .ok url →
      create_checkout_session cfg g (mapStockFields f store) req = .ok url := by
  have h := resolveLineItems_mapStockFields f store req.items
  have h1 : create_checkout_session cfg g (mapStockFields f store) req =
      create_checkout_session cfg g store req := by
    simp only [create_checkout_session, h]
  exact ⟨h1, fun url hu => h1.trans hu⟩

/-- C10 witness: marking the sample product out of stock with zero stock
changes nothing; the session URL is still returned. -/
theorem c10_witness :
    create_checkout_session true sampleGateway
        (mapStockFields (fun _ => (some false, some 0)) sampleStore) sampleReq =
      create_checkout_session true sampleGateway sampleStore sampleReq ∧
    create_checkout_session true sampleGateway
        (mapStockFields (fun _ => (some false, some 0)) sampleStore) sampleReq =
      .ok "https://checkout.stripe.com/pay/cs_test" := by
  have h := c10_stock_never_consulted true sampleGateway sampleStore sampleReq
    (fun _ => (some false, some 0))
  exact ⟨h.1, h.2 "https://checkout.stripe.com/pay/cs_test" rfl⟩
